import Mathlib

/-!
Shallow embedding of the sentiment-analysis and recommendation pipeline of
`AI Workflow Functions/analyze_sentiment/main.py`.

Python floats are modelled as exact rationals (`ℚ`); none of the verified
claims depends on binary rounding.  Strings handled character-wise are
modelled as `List Char`.  Database tables are modelled as lists of rows.
-/

/-- Python `str.strip()`: remove leading and trailing whitespace
(used at main.py lines 118 and 123). -/
def pyStrip (cs : List Char) : List Char :=
  ((cs.dropWhile Char.isWhitespace).reverse.dropWhile Char.isWhitespace).reverse

/-- One attempt of the first alternative of the regex at main.py line 127,
anchored at the head of `cs`: an optional sign, then a greedy digit run,
then a dot, then at least one digit.  Mirrors Python backtracking: digits
and the dot are disjoint character classes, so the greedy run is the only
viable one, and when the sign is consumed the signless retry can never
succeed at the same position. -/
def matchDecimalAt (cs : List Char) : Option (List Char) :=
  let signRest : List Char × List Char :=
    match cs with
    | c :: t => if c = '-' ∨ c = '+' then ([c], t) else ([], cs)
    | [] => ([], [])
  let d1 := signRest.2.takeWhile Char.isDigit
  let rest1 := signRest.2.dropWhile Char.isDigit
  match rest1 with
  | '.' :: rest2 =>
    let d2 := rest2.takeWhile Char.isDigit
    if d2.isEmpty then none else some (signRest.1 ++ d1 ++ '.' :: d2)
  | _ => none

/-- Second alternative of the regex at main.py line 127, anchored at the
head of `cs`: a bare unsigned digit run. -/
def matchIntAt (cs : List Char) : Option (List Char) :=
  let d := cs.takeWhile Char.isDigit
  if d.isEmpty then none else some d

/-- Python re.search of the pattern at main.py line 127: scan positions left
to right; at each position try the first alternative, then the second; the
leftmost match wins. -/
def findNumber : List Char → Option (List Char)
  | [] => none
  | c :: t =>
    match matchDecimalAt (c :: t) with
    | some m => some m
    | none =>
      match matchIntAt (c :: t) with
      | some m => some m
      | none => findNumber t

/-- Value of an unsigned digit run. -/
def digitsVal (ds : List Char) : Nat :=
  ds.foldl (fun n c => 10 * n + (c.toNat - 48)) 0

/-- Python `float()` (main.py line 129) restricted to the token shapes the
regex at line 127 can produce: an optional sign, an integer part, and an
optional dot followed by a fraction part. -/
def tokenToRat (tok : List Char) : ℚ :=
  let signRest : ℚ × List Char :=
    match tok with
    | '-' :: t => (-1, t)
    | '+' :: t => (1, t)
    | t => (1, t)
  let ip := signRest.2.takeWhile Char.isDigit
  let rest1 := signRest.2.dropWhile Char.isDigit
  match rest1 with
  | '.' :: fp => signRest.1 * ((digitsVal ip : ℚ) + (digitsVal fp : ℚ) / (10 : ℚ) ^ fp.length)
  | _ => signRest.1 * (digitsVal ip : ℚ)

/-- The per-article scorer `analyze_article_sentiment` (main.py lines
117-137).  `response = none` models a raised exception in the model call
(the `except` branch, line 135); `response = some txt` models a reply whose
`.text` is `txt`.  Content shorter than 100 characters after stripping
short-circuits to 0.0 (line 118); an unparseable reply defaults to 0.0
(line 131). -/
def analyze_article_sentiment (full_content : List Char) (response : Option (List Char)) : ℚ :=
  if (pyStrip full_content).length < 100 then 0
  else
    match response with
    | none => 0
    | some txt =>
      match findNumber (pyStrip txt) with
      | some tok => tokenToRat tok
      | none => 0

/-- The price-data gate of the handler (main.py lines 85-92).  A bar carries
`none` as its close when the database value is NULL.  The emptiness check that
produces the 404 response (line 87) runs BEFORE rows with a missing close
are dropped (line 92), so only an empty result set is treated as "no
data". -/
def fetchCloses (bars : List (Option ℚ)) : Except String (List ℚ) :=
  if bars.isEmpty then Except.error "No stock data available"
  else Except.ok (bars.filterMap id)

/-- The pandas `pct_change() * 100` column of main.py line 96: one entry per
consecutive pair of closes (the leading NaN that pandas places at index 0
is skipped by `mean()` and is therefore not materialised here). -/
def pctChanges (closes : List ℚ) : List ℚ :=
  List.zipWith (fun prev cur => (cur - prev) / prev * 100) closes closes.tail

/-- `overall_trend` (main.py lines 97-100): the mean of the percent changes,
defaulted to 0.0 when there are none (the `pd.isna` branch). -/
def overallTrend (closes : List ℚ) : ℚ :=
  let pcs := pctChanges closes
  if pcs.isEmpty then 0 else pcs.sum / (pcs.length : ℚ)

/-- The last entry of the `rolling(7).mean()` column of main.py line 95:
the mean of the final 7 closes, `none` (NaN) when fewer than 7 bars
exist. -/
def movingAverage7Last (closes : List ℚ) : Option ℚ :=
  if 7 ≤ closes.length then some ((closes.drop (closes.length - 7)).sum / 7) else none

/-- Weight selection of main.py lines 165-175: first-match-wins on
sentiment dominance, then trend dominance, else the (0.5, 0.5) default. -/
def sentimentTrendWeights (recent_sentiment overall_trend : ℚ) : ℚ × ℚ :=
  if |recent_sentiment| > 1 / 2 then (7 / 10, 3 / 10)
  else if |overall_trend| > 1 / 2 then (3 / 10, 7 / 10)
  else (1 / 2, 1 / 2)

/-- `recommendation_score` (main.py line 181): weighted fusion of the
aggregate sentiment and the overall trend. -/
def recommendationScore (recent_sentiment overall_trend : ℚ) : ℚ :=
  (sentimentTrendWeights recent_sentiment overall_trend).1 * recent_sentiment +
    (sentimentTrendWeights recent_sentiment overall_trend).2 * overall_trend

/-- The three recommendation categories of main.py lines 184-189. -/
inductive FinalRec
  | Buy
  | Sell
  | Hold
deriving DecidableEq

/-- `final_recommendation` (main.py lines 184-189): Buy above 0.2, Sell
below -0.2, Hold otherwise. -/
def finalRecommendation (score : ℚ) : FinalRec :=
  if score > 1 / 5 then FinalRec.Buy
  else if score < -(1 / 5) then FinalRec.Sell
  else FinalRec.Hold

/-- A row of the `recommendations` table (columns of main.py lines
212-214). -/
structure RecRow where
  id : Nat
  symbol : String
  recommendation_score : ℚ
  final_recommendation : FinalRec
  reasoning : String
  created_at : Nat
  close_price : ℚ
  moving_average : ℚ
  date : Nat
deriving DecidableEq

/-- The parameter record bound at main.py lines 224-233.  Per line 231 the
`moving_average` column receives `overall_trend`, not the rolling mean of
line 95.  `close_price` and `date` are `iloc[-1]` of the respective
columns; the model totalises the empty case with 0, which the source would
instead raise on — no claim evaluates it on an empty series. -/
def mkRecommendationRow (id now : Nat) (symbol : String) (recent_sentiment : ℚ)
    (closes : List ℚ) (dates : List Nat) (reasoning : String) : RecRow :=
  { id := id
    symbol := symbol
    recommendation_score := recommendationScore recent_sentiment (overallTrend closes)
    final_recommendation :=
      finalRecommendation (recommendationScore recent_sentiment (overallTrend closes))
    reasoning := reasoning
    created_at := now
    close_price := closes.getLastD 0
    moving_average := overallTrend closes
    date := dates.getLastD 0 }

/-- Ordering used by the retention delete (ORDER BY created_at ASC,
main.py line 206).  SQL leaves tie order unspecified; insertion sort picks
one stable realisation. -/
def sortByCreated (rows : List RecRow) : List RecRow :=
  rows.insertionSort (fun a b => a.created_at ≤ b.created_at)

/-- The retention DELETE of main.py lines 202-209: among the rows of the
symbol, the `LIMIT GREATEST(0, count - 4)` oldest ones (by created_at) are
selected by id and removed. -/
def deleteOldest (store : List RecRow) (symbol : String) : List RecRow :=
  let mine := store.filter (fun r => r.symbol == symbol)
  let victims := ((sortByCreated mine).take (mine.length - 4)).map (fun r => r.id)
  store.filter (fun r => !(r.symbol == symbol && victims.elem r.id))

/-- Replace the first row carrying the symbol of `new` with the new values,
keeping the id of the stored row — the effect of `ON CONFLICT (symbol) DO
UPDATE` (main.py lines 215-222) on the conflicting row.  The conflict
clause presupposes a unique index on symbol, under which at most one row
can match. -/
def replaceFirst : List RecRow → RecRow → List RecRow
  | [], _ => []
  | r :: rest, new =>
    if r.symbol == new.symbol then { new with id := r.id } :: rest
    else r :: replaceFirst rest new

/-- The INSERT ... ON CONFLICT (symbol) DO UPDATE of main.py lines 212-223:
a fresh row when no row carries the symbol, otherwise an in-place update of
the existing row. -/
def upsertRec (store : List RecRow) (new : RecRow) : List RecRow :=
  if store.any (fun r => r.symbol == new.symbol) then replaceFirst store new
  else store ++ [new]

/-- The JSON body returned at main.py lines 241-246.  The dict literal
there has exactly the four data keys and no error key, so `error` can only
ever be `none` on this path. -/
structure RecResponse where
  symbol : String
  recommendation_score : ℚ
  final_recommendation : FinalRec
  reasoning : String
  error : Option String
deriving DecidableEq

/-- Where inside the write transaction of main.py lines 199-239 an
exception is raised. -/
inductive WriteFail
  | during_delete
  | during_insert
  | at_commit
deriving DecidableEq

/-- The recommendation write plus the unconditional return (main.py lines
199-246).  The delete and the insert run in one session and only `commit`
(line 234) publishes them; an exception anywhere in the block triggers
`session.rollback()` (line 239), leaving the committed store unchanged,
after which control falls through to the return at lines 241-246 whose
payload carries the computed fields and no error key. -/
def writeRecommendation (store : List RecRow) (new : RecRow) (failAt : Option WriteFail) :
    List RecRow × RecResponse :=
  let committed :=
    match failAt with
    | some _ => store
    | none => upsertRec (deleteOldest store new.symbol) new
  (committed,
    { symbol := new.symbol
      recommendation_score := new.recommendation_score
      final_recommendation := new.final_recommendation
      reasoning := new.reasoning
      error := none })

/-- Number of rows a store holds for a symbol. -/
def countSym (store : List RecRow) (symbol : String) : Nat :=
  (store.filter (fun r => r.symbol == symbol)).length

/-- A row of the `news_sentiment` table (columns read at main.py line 106
plus the mutated score column). -/
structure NewsRow where
  id : Nat
  symbol : String
  title : String
  full_content : String
  sentiment_score : ℚ
deriving DecidableEq

/-- The per-article UPDATE of main.py lines 151-156: set `sentiment_score`
on every row whose id matches; all other columns and rows are written back
unchanged. -/
def updateSentiment (store : List NewsRow) (id : Nat) (score : ℚ) : List NewsRow :=
  store.map (fun a => if a.id == id then { a with sentiment_score := score } else a)

/-- Modelled from the spec: the overall-trend formula exactly as section
4.3 words it — the mean over i = 1..n-1 of
(close[i] - close[i-1]) / close[i-1] * 100, collapsing to 0.0 for fewer
than 2 points.  Used only as the comparison side of the C9 refinement. -/
def specTrend (closes : List ℚ) : ℚ :=
  if closes.length < 2 then 0
  else
    (((List.range (closes.length - 1)).map
        (fun i => (closes.getD (i + 1) 0 - closes.getD i 0) / closes.getD i 0 * 100)).sum) /
      ((closes.length - 1 : Nat) : ℚ)

/-- The eight-close example series of spec section 8. -/
def closes8 : List ℚ := [100, 102, 101, 105, 107, 103, 110, 108]

/-- A 100-plus-character article body, long enough to pass the short-content
gate of main.py line 118. -/
def longContent : List Char :=
  ("The quarterly report shows strong revenue growth across all segments and " ++
    "management raised its guidance for the coming fiscal year.").data

/-- A concrete recommendation row for the symbol AAPL, with ℚ fields kept
division-free so concrete store computations reduce in the kernel. -/
def mkAaplRow (id created : Nat) : RecRow :=
  { id := id
    symbol := "AAPL"
    recommendation_score := 0
    final_recommendation := FinalRec.Hold
    reasoning := "r"
    created_at := created
    close_price := 0
    moving_average := 0
    date := 0 }

/-- A store already holding five recommendation rows for AAPL, ids 1..5 in
creation order. -/
def fiveRowStore : List RecRow :=
  [mkAaplRow 1 1, mkAaplRow 2 2, mkAaplRow 3 3, mkAaplRow 4 4, mkAaplRow 5 5]

/-- The sixth recommendation written for AAPL. -/
def newRow6 : RecRow :=
  { id := 6
    symbol := "AAPL"
    recommendation_score := 1
    final_recommendation := FinalRec.Buy
    reasoning := "buy"
    created_at := 6
    close_price := 108
    moving_average := 0
    date := 9 }

/-- A concrete two-row news store. -/
def newsStore2 : List NewsRow :=
  [{ id := 1, symbol := "AAPL", title := "t1", full_content := "c1", sentiment_score := 0 },
    { id := 2, symbol := "AAPL", title := "t2", full_content := "c2", sentiment_score := 0 }]

/-- Default row used with `List.getD` in frame statements. -/
def defaultNewsRow : NewsRow :=
  { id := 0, symbol := "", title := "", full_content := "", sentiment_score := 0 }

/-! Helper lemmas shared by the claim theorems below. -/

/-- Reading position `i` of a mapped list under any defaults, for `i` in
bounds. -/
theorem getD_map_of_lt {α β : Type} (f : α → β) (dβ : β) (dα : α) :
    ∀ (l : List α) (i : Nat), i < l.length → (l.map f).getD i dβ = f (l.getD i dα)
  | _ :: _, 0, _ => rfl
  | _ :: l, i + 1, h => getD_map_of_lt f dβ dα l i (Nat.lt_of_succ_lt_succ h)
  | [], _, h => absurd h (by simp)

/-- The consecutive-pairs column as a map over indices: zipping a list with
its own tail enumerates exactly the index pairs (i, i+1). -/
theorem zipWith_tail_eq_map_range (f : ℚ → ℚ → ℚ) :
    ∀ l : List ℚ,
      List.zipWith f l l.tail =
        (List.range (l.length - 1)).map (fun i => f (l.getD i 0) (l.getD (i + 1) 0))
  | [] => rfl
  | [_] => rfl
  | a :: b :: t => by
    have ih := zipWith_tail_eq_map_range f (b :: t)
    show f a b :: List.zipWith f (b :: t) t = _
    rw [show List.zipWith f (b :: t) t = List.zipWith f (b :: t) (b :: t).tail from rfl, ih]
    have hlen : (a :: b :: t).length - 1 = ((b :: t).length - 1) + 1 := by simp
    rw [hlen, List.range_succ_eq_map, List.map_cons, List.map_map]
    rfl

/-- The source computation of overall_trend agrees with the worded formula
of spec section 4.3 on every close series. -/
theorem overallTrend_eq_specTrend (closes : List ℚ) : overallTrend closes = specTrend closes := by
  unfold overallTrend specTrend pctChanges
  have hlen : (List.zipWith (fun prev cur => (cur - prev) / prev * 100) closes closes.tail).length
      = closes.length - 1 := by
    rw [List.length_zipWith, List.length_tail]
    omega
  by_cases h2 : closes.length < 2
  · have hemp : (List.zipWith (fun prev cur => (cur - prev) / prev * 100)
        closes closes.tail).isEmpty = true := by
      rw [List.isEmpty_iff_length_eq_zero, hlen]
      omega
    simp only [hemp, if_pos h2, if_true]
  · have hne : ¬ ((List.zipWith (fun prev cur => (cur - prev) / prev * 100)
        closes closes.tail).isEmpty = true) := by
      rw [List.isEmpty_iff_length_eq_zero, hlen]
      omega
    rw [if_neg hne, if_neg h2, zipWith_tail_eq_map_range]
    simp

/-- After the retention delete, at most 4 rows of the symbol remain: the
delete removes the `count - 4` oldest rows of the symbol by id. -/
theorem countSym_deleteOldest_le (store : List RecRow) (symbol : String) :
    countSym (deleteOldest store symbol) symbol ≤ 4 := by
  unfold countSym deleteOldest
  set mine := store.filter (fun r => r.symbol == symbol) with hmine
  set sorted := sortByCreated mine with hsorted
  set victims := (sorted.take (mine.length - 4)).map (fun r => r.id) with hvict
  have hperm : sorted.Perm mine := List.perm_insertionSort _ mine
  have hcomb :
      (store.filter (fun r => !(r.symbol == symbol && victims.elem r.id))).filter
          (fun r => r.symbol == symbol) =
        mine.filter (fun r => !(victims.elem r.id)) := by
    rw [hmine, List.filter_filter, List.filter_filter]
    apply List.filter_congr
    intro r _
    cases hp : (r.symbol == symbol) <;> cases he : victims.elem r.id <;> simp [hp, he]
  rw [hcomb]
  have hlfil : (mine.filter (fun r => !(victims.elem r.id))).length =
      (sorted.filter (fun r => !(victims.elem r.id))).length :=
    ((hperm.filter _).length_eq).symm
  rw [hlfil]
  have hsplit : sorted = sorted.take (mine.length - 4) ++ sorted.drop (mine.length - 4) :=
    (List.take_append_drop _ _).symm
  rw [hsplit, List.filter_append, List.length_append]
  have htake : (sorted.take (mine.length - 4)).filter (fun r => !(victims.elem r.id)) = [] := by
    rw [List.filter_eq_nil_iff]
    intro r hr
    simp only [Bool.not_eq_true', Bool.not_not]
    have hmem : r.id ∈ victims := by
      rw [hvict]
      exact List.mem_map_of_mem _ hr
    simpa [List.elem_iff] using hmem
  rw [htake]
  simp only [List.length_nil, Nat.zero_add]
  have hd : ((sorted.drop (mine.length - 4)).filter (fun r => !(victims.elem r.id))).length ≤
      (sorted.drop (mine.length - 4)).length := List.length_filter_le _ _
  have hdl : (sorted.drop (mine.length - 4)).length = sorted.length - (mine.length - 4) :=
    List.length_drop _ _
  have hsl : sorted.length = mine.length := hperm.length_eq
  omega

/-- Updating the conflicting row in place never changes how many rows carry
the symbol. -/
theorem countSym_replaceFirst (l : List RecRow) (new : RecRow) :
    countSym (replaceFirst l new) new.symbol = countSym l new.symbol := by
  induction l with
  | nil => rfl
  | cons r rest ih =>
    cases hB : (r.symbol == new.symbol) with
    | true =>
      simp [replaceFirst, hB, countSym, List.filter_cons]
    | false =>
      simp only [replaceFirst, hB, Bool.false_eq_true, if_false]
      simp only [countSym, List.filter_cons, hB, Bool.false_eq_true, if_false]
      simpa [countSym] using ih

/-- The upsert adds at most one row of the symbol on top of the
post-retention count. -/
theorem countSym_upsert_le (store : List RecRow) (new : RecRow)
    (h : countSym store new.symbol ≤ 4) :
    countSym (upsertRec store new) new.symbol ≤ 5 := by
  unfold upsertRec
  by_cases ha : store.any (fun r => r.symbol == new.symbol)
  · rw [if_pos ha, countSym_replaceFirst]
    omega
  · rw [if_neg ha]
    unfold countSym at h ⊢
    rw [List.filter_append, List.length_append]
    have hone : (List.filter (fun r => r.symbol == new.symbol) [new]).length ≤ 1 :=
      List.length_filter_le _ _
    omega

/-! Claim theorems. -/

set_option maxRecDepth 100000 in
/-- Claim C1: the parse step fails the claim on signed integers — the regex
alternation of main.py line 127 binds the sign only to the decimal
alternative, so for the response text consisting of the signed integer
token the match is the unsigned digit run and the scorer returns +1, not
the signed value -1 the claim (and the prompt contract of line 120)
require. -/
theorem signed_integer_parse_drops_sign :
    findNumber ("-1".data) = some ['1'] ∧
    analyze_article_sentiment longContent (some ("-1".data)) = 1 ∧
    (1 : ℚ) ≠ -1 := by
  refine ⟨rfl, ?_, by norm_num⟩
  have h : analyze_article_sentiment longContent (some ("-1".data)) =
      (1 : ℚ) * ((1 : Nat) : ℚ) := rfl
  rw [h]
  norm_num

set_option maxRecDepth 100000 in
/-- Claim C2, counterexample: a scoring-service response whose first numeric
token is 7 makes the scorer return 7, which lies outside the interval
[-1, 1]; the code applies no clamping. -/
theorem score_outside_unit_interval :
    analyze_article_sentiment longContent (some ("Sentiment score is 7 out of 10".data)) = 7 ∧
    ¬ ((7 : ℚ) ≤ 1) := by
  constructor
  · have h : analyze_article_sentiment longContent
        (some ("Sentiment score is 7 out of 10".data)) = (1 : ℚ) * ((7 : Nat) : ℚ) := rfl
    rw [h]
    norm_num
  · norm_num

/-- Claim C2, amended: the scorer returns a value in [-1, 1] provided the
first numeric token of the response (if the response parses at all) has
value in [-1, 1]; in the short-content, failed-call and unparseable cases
it returns 0, which is in the interval. -/
theorem score_in_unit_interval_of_token_bounded :
    ∀ (full_content : List Char) (response : Option (List Char)),
      (∀ txt tok, response = some txt → findNumber (pyStrip txt) = some tok →
        -1 ≤ tokenToRat tok ∧ tokenToRat tok ≤ 1) →
      -1 ≤ analyze_article_sentiment full_content response ∧
        analyze_article_sentiment full_content response ≤ 1 := by
  intro fc resp h
  unfold analyze_article_sentiment
  by_cases hs : (pyStrip fc).length < 100
  · rw [if_pos hs]
    constructor <;> norm_num
  · rw [if_neg hs]
    match resp with
    | none => constructor <;> norm_num
    | some txt =>
      cases hf : findNumber (pyStrip txt) with
      | none => simp [hf]
      | some tok =>
        simp only [hf]
        exact h txt tok rfl hf

/-- Witness for the amended C2 at a concrete input. -/
theorem score_in_unit_interval_witness :
    -1 ≤ analyze_article_sentiment longContent none ∧
      analyze_article_sentiment longContent none ≤ 1 :=
  score_in_unit_interval_of_token_bounded longContent none
    (fun _ _ h _ => Option.noConfusion h)

/-- Claim C3, counterexample: a one-bar history whose only close is missing
does NOT signal not-found — the handler returns the Ok branch with an empty
close list and the trend then defaults to 0. -/
theorem all_missing_close_not_notfound :
    fetchCloses [(none : Option ℚ)] = Except.ok [] ∧
    (¬ ∃ e, fetchCloses [(none : Option ℚ)] = Except.error e) ∧
    overallTrend [] = 0 := by
  refine ⟨rfl, ?_, rfl⟩
  rintro ⟨e, he⟩
  rw [show fetchCloses [(none : Option ℚ)] = Except.ok [] from rfl] at he
  cases he

/-- Claim C3, amended: the not-found condition fires exactly when the
fetched bar list is empty — the check precedes the drop of missing closes —
and a nonempty history whose closes are all missing proceeds with an empty
close sequence and a defaulted trend of 0. -/
theorem notFound_iff_no_bars :
    (∀ bars : List (Option ℚ), (∃ e, fetchCloses bars = Except.error e) ↔ bars = []) ∧
    (∀ bars : List (Option ℚ), (∀ b ∈ bars, b = none) → bars ≠ [] →
      fetchCloses bars = Except.ok [] ∧ overallTrend [] = 0) := by
  constructor
  · intro bars
    constructor
    · rintro ⟨e, he⟩
      unfold fetchCloses at he
      by_cases hb : bars.isEmpty
      · exact List.isEmpty_iff.mp hb
      · rw [if_neg (by simp [hb])] at he
        cases he
    · intro h
      subst h
      exact ⟨_, rfl⟩
  · intro bars hall hne
    have hfm : bars.filterMap id = [] := by
      rw [List.filterMap_eq_nil_iff]
      intro a ha
      exact hall a ha
    refine ⟨?_, rfl⟩
    unfold fetchCloses
    rw [if_neg (by simp [hne]), hfm]

/-- Witness for the amended C3 at a concrete input. -/
theorem notFound_iff_no_bars_witness :
    fetchCloses [(none : Option ℚ)] = Except.ok [] ∧ overallTrend [] = 0 :=
  notFound_iff_no_bars.2 [none] (by simp) (by simp)

/-- Claim C4: the persisted moving_average field always receives the value
of overall_trend (main.py line 231), and on the eight-close example series
that value differs from the trailing 7-bar mean of close (736/7) that the
claim prescribes. -/
theorem persisted_moving_average_is_trend :
    (∀ (id now : Nat) (symbol : String) (recent_sentiment : ℚ) (closes : List ℚ)
        (dates : List Nat) (reasoning : String),
      (mkRecommendationRow id now symbol recent_sentiment closes dates reasoning).moving_average =
        overallTrend closes) ∧
    overallTrend closes8 ≠ 736 / 7 ∧
    movingAverage7Last closes8 = some (736 / 7) := by
  refine ⟨fun _ _ _ _ _ _ _ => rfl, ?_, ?_⟩
  · simp [overallTrend, pctChanges, closes8]
    norm_num
  · simp [movingAverage7Last, closes8]
    norm_num

/-- Claim C5, counterexample: when the recommendation write fails, the store
is indeed left unchanged, but the response carries no error at all — the
payload of main.py lines 241-246 has no error key, refuting the surfaced
top-level error the claim asserts. -/
theorem persistence_failure_error_not_surfaced :
    (writeRecommendation fiveRowStore newRow6 (some WriteFail.at_commit)).1 = fiveRowStore ∧
    (writeRecommendation fiveRowStore newRow6 (some WriteFail.at_commit)).2.error = none :=
  ⟨rfl, rfl⟩

/-- Claim C5, amended: on any failure inside the write transaction the
retention delete and the upsert roll back together (the committed store is
unchanged) and the already-computed recommendation fields are still
returned, but the error is only logged — the response payload contains no
error field. -/
theorem rollback_preserves_store_and_payload :
    ∀ (store : List RecRow) (new : RecRow) (f : WriteFail),
      (writeRecommendation store new (some f)).1 = store ∧
      (writeRecommendation store new (some f)).2 =
        { symbol := new.symbol
          recommendation_score := new.recommendation_score
          final_recommendation := new.final_recommendation
          reasoning := new.reasoning
          error := none } :=
  fun _ _ _ => ⟨rfl, rfl⟩

/-- Witness for the amended C5 at a concrete input. -/
theorem rollback_preserves_store_and_payload_witness :
    (writeRecommendation [] newRow6 (some WriteFail.during_delete)).1 = [] ∧
    (writeRecommendation [] newRow6 (some WriteFail.during_delete)).2 =
      { symbol := newRow6.symbol
        recommendation_score := newRow6.recommendation_score
        final_recommendation := newRow6.final_recommendation
        reasoning := newRow6.reasoning
        error := none } :=
  rollback_preserves_store_and_payload [] newRow6 WriteFail.during_delete

/-- Claim C6, counterexample: a store already holding five AAPL rows holds
four, not five, after the sixth write — the retention delete evicts the
oldest row and the symbol-conflict upsert then updates an existing row
instead of inserting a new one. -/
theorem sixth_write_leaves_four_rows :
    countSym fiveRowStore "AAPL" = 5 ∧
    countSym (writeRecommendation fiveRowStore newRow6 none).1 "AAPL" ≠ 5 := by
  exact ⟨by decide, by decide⟩

/-- Claim C6, amended: every successful write leaves at most 5 rows for the
written symbol (the delete keeps at most 4 and the upsert adds at most 1);
on the concrete five-row AAPL store the sixth write leaves exactly 4 rows,
the oldest pre-existing row (id 1) evicted and the new values stored by
updating an existing row. -/
theorem retention_ceiling_holds :
    (∀ (store : List RecRow) (new : RecRow),
      countSym (writeRecommendation store new none).1 new.symbol ≤ 5) ∧
    countSym (writeRecommendation fiveRowStore newRow6 none).1 "AAPL" = 4 ∧
    ((writeRecommendation fiveRowStore newRow6 none).1.map (fun r => r.id)) = [2, 3, 4, 5] := by
  refine ⟨?_, by decide, by decide⟩
  intro store new
  exact countSym_upsert_le _ _ (countSym_deleteOldest_le store new.symbol)

/-- Claim C7: the fusion weights are chosen first-match-wins — sentiment
dominance (0.7, 0.3), else trend dominance (0.3, 0.7), else the default
(0.5, 0.5) — the score is the corresponding weighted sum, and when both
exceed 0.5 in magnitude sentiment dominance wins. -/
theorem fusion_weights_first_match :
    ∀ s t : ℚ,
      recommendationScore s t =
        (sentimentTrendWeights s t).1 * s + (sentimentTrendWeights s t).2 * t ∧
      (|s| > 1 / 2 → sentimentTrendWeights s t = (7 / 10, 3 / 10)) ∧
      (|s| ≤ 1 / 2 → |t| > 1 / 2 → sentimentTrendWeights s t = (3 / 10, 7 / 10)) ∧
      (|s| ≤ 1 / 2 → |t| ≤ 1 / 2 → sentimentTrendWeights s t = (1 / 2, 1 / 2)) ∧
      (|s| > 1 / 2 → |t| > 1 / 2 → sentimentTrendWeights s t = (7 / 10, 3 / 10)) := by
  intro s t
  refine ⟨rfl, ?_, ?_, ?_, ?_⟩
  · intro h1
    rw [sentimentTrendWeights, if_pos h1]
  · intro h1 h2
    rw [sentimentTrendWeights, if_neg (not_lt.mpr h1), if_pos h2]
  · intro h1 h2
    rw [sentimentTrendWeights, if_neg (not_lt.mpr h1), if_neg (not_lt.mpr h2)]
  · intro h1 _
    rw [sentimentTrendWeights, if_pos h1]

/-- Witness for C7 at a concrete input where both inputs exceed 0.5 in
magnitude. -/
theorem fusion_weights_first_match_witness :
    sentimentTrendWeights (3 / 5) (3 / 5) = (7 / 10, 3 / 10) ∧
    recommendationScore (3 / 5) (3 / 5) = 7 / 10 * (3 / 5) + 3 / 10 * (3 / 5) := by
  have h := fusion_weights_first_match (3 / 5) (3 / 5)
  have habs : |(3 : ℚ) / 5| > 1 / 2 := by
    rw [abs_of_nonneg (by norm_num)]
    norm_num
  have hw := h.2.2.2.2 habs habs
  refine ⟨hw, ?_⟩
  rw [h.1, hw]

/-- Claim C8: the categorisation is Buy exactly above 0.2, Sell exactly
below -0.2, Hold exactly on the closed interval between, with both
boundary points falling into Hold; the three characterisations partition
every score. -/
theorem final_recommendation_thresholds :
    ∀ x : ℚ,
      (finalRecommendation x = FinalRec.Buy ↔ 1 / 5 < x) ∧
      (finalRecommendation x = FinalRec.Sell ↔ x < -(1 / 5)) ∧
      (finalRecommendation x = FinalRec.Hold ↔ -(1 / 5) ≤ x ∧ x ≤ 1 / 5) ∧
      finalRecommendation (1 / 5 : ℚ) = FinalRec.Hold ∧
      finalRecommendation (-(1 / 5) : ℚ) = FinalRec.Hold := by
  have hchar : ∀ x : ℚ,
      (finalRecommendation x = FinalRec.Buy ↔ 1 / 5 < x) ∧
      (finalRecommendation x = FinalRec.Sell ↔ x < -(1 / 5)) ∧
      (finalRecommendation x = FinalRec.Hold ↔ -(1 / 5) ≤ x ∧ x ≤ 1 / 5) := by
    intro x
    unfold finalRecommendation
    split_ifs with h1 h2 <;>
      refine ⟨?_, ?_, ?_⟩ <;> simp_all <;>
        first
        | linarith
        | (constructor <;> intro h <;> linarith)
  intro x
  refine ⟨(hchar x).1, (hchar x).2.1, (hchar x).2.2, ?_, ?_⟩
  · exact (hchar (1 / 5)).2.2.mpr (by norm_num)
  · exact (hchar (-(1 / 5))).2.2.mpr (by norm_num)

/-- Witness for C8 at the score 0. -/
theorem final_recommendation_thresholds_witness :
    finalRecommendation 0 = FinalRec.Hold :=
  (final_recommendation_thresholds 0).2.2.1.mpr (by norm_num)

/-- Claim C9: overall_trend equals the spec formula (mean of the
period-over-period percent changes) on every series, collapses to 0 below
two points, and on the eight-close example equals the mean of its seven
percent changes. -/
theorem overall_trend_matches_spec :
    (∀ closes : List ℚ, overallTrend closes = specTrend closes) ∧
    (∀ closes : List ℚ, closes.length < 2 → overallTrend closes = 0) ∧
    overallTrend closes8 =
      ((102 - 100) / 100 * 100 + (101 - 102) / 102 * 100 + (105 - 101) / 101 * 100 +
        (107 - 105) / 105 * 100 + (103 - 107) / 107 * 100 + (110 - 103) / 103 * 100 +
        (108 - 110) / 110 * 100) / 7 := by
  refine ⟨overallTrend_eq_specTrend, ?_, ?_⟩
  · intro closes h
    rw [overallTrend_eq_specTrend, specTrend, if_pos h]
  · simp [overallTrend, pctChanges, closes8]
    norm_num

/-- Witness for C9 at the empty series. -/
theorem overall_trend_matches_spec_witness :
    overallTrend ([] : List ℚ) = 0 :=
  overall_trend_matches_spec.2.1 [] (by simp)

/-- Claim C10: the per-article write touches only the sentiment_score field
of rows whose id matches: list length is preserved, id, symbol, title and
full_content of every position are preserved, a row with a different id is
entirely unchanged, and a row with the matching id receives the new
score. -/
theorem update_sentiment_frame :
    ∀ (store : List NewsRow) (id : Nat) (score : ℚ) (i : Nat), i < store.length →
      (updateSentiment store id score).length = store.length ∧
      ((updateSentiment store id score).getD i defaultNewsRow).id =
        (store.getD i defaultNewsRow).id ∧
      ((updateSentiment store id score).getD i defaultNewsRow).symbol =
        (store.getD i defaultNewsRow).symbol ∧
      ((updateSentiment store id score).getD i defaultNewsRow).title =
        (store.getD i defaultNewsRow).title ∧
      ((updateSentiment store id score).getD i defaultNewsRow).full_content =
        (store.getD i defaultNewsRow).full_content ∧
      ((store.getD i defaultNewsRow).id ≠ id →
        (updateSentiment store id score).getD i defaultNewsRow =
          store.getD i defaultNewsRow) ∧
      ((store.getD i defaultNewsRow).id = id →
        ((updateSentiment store id score).getD i defaultNewsRow).sentiment_score = score) := by
  intro store id score i hi
  have hmap := getD_map_of_lt
    (fun a => if a.id == id then { a with sentiment_score := score } else a)
    defaultNewsRow defaultNewsRow store i hi
  unfold updateSentiment
  rw [List.length_map, hmap]
  set old := store.getD i defaultNewsRow with hold
  by_cases h : old.id = id
  · simp [h]
  · simp [h]

/-- Witness for C10 at a concrete two-row store: the row with the other id
is unchanged by the write. -/
theorem update_sentiment_frame_witness :
    (updateSentiment newsStore2 2 1).getD 0 defaultNewsRow =
      newsStore2.getD 0 defaultNewsRow :=
  (update_sentiment_frame newsStore2 2 1 0 (by decide)).2.2.2.2.2.1 (by decide)
